import Mathlib

/-!
Verification of the frpx reverse-tunneling proxy (server `frps/src/main.rs`,
shared codec `common/src/lib.rs`) against its natural-language specification.

Modelling conventions, chosen to mirror the Rust source:

* `HashMap` values are modelled as association lists with distinct keys
  (`alookup` / `aremove` mirror `HashMap::get` / `HashMap::remove`); map
  iteration order, unspecified for `HashMap`, becomes list order.
* `f32` values are modelled by their IEEE-754 classification (`F32`): the code
  never computes with floats, it only stores them and serializes them, so only
  finiteness and the payload identity matter.  `serde_json` serializes a
  non-finite float as JSON `null` and fails to deserialize `null` back into an
  `f32`; finite floats round-trip exactly through the shortest-representation
  printer (ryu).
* `serde_json` text rendering of a JSON tree is treated as an external codec:
  theorems that need it quantify over a `render`/`parse` pair that inverts on
  the tree at hand, which is the documented contract of the library.
* Wall-clock times (`SystemTime::now`, `Utc::now`) and the RNG are passed in as
  explicit parameters.
-/

/-- Association-list lookup mirroring `HashMap::get` (keys are unique in every
reachable map, maintained by the insertion checks in the source). -/
def alookup {α : Type} (k : String) : List (String × α) → Option α
  | [] => none
  | (k₁, v) :: rest => if k₁ = k then some v else alookup k rest

/-- Association-list removal mirroring `HashMap::remove`: deletes the (unique)
entry with the given key. -/
def aremove {α : Type} (k : String) : List (String × α) → List (String × α)
  | [] => []
  | (k₁, v) :: rest => if k₁ = k then rest else (k₁, v) :: aremove k rest

/-- IEEE-754 single precision as observed by the modelled code: the server
stores `f32` metrics and serializes them, but never computes with them, so a
value is either finite (identified by its bit pattern) or one of the
non-finite classes. -/
inductive F32 where
  | finite (bits : Nat)
  | nan
  | infPos
  | infNeg
deriving DecidableEq

/-- Literal `0.0` (all-zero bit pattern). -/
def F32.zero : F32 := F32.finite 0

def F32.isFinite : F32 → Bool
  | .finite _ => true
  | _ => false

/-- Model catalogue entry, from `common/src/lib.rs` (`pub struct Model`). -/
structure Model where
  id : String
  object : String
  created : Nat
  owned_by : String
deriving DecidableEq

/-- Control-plane message, from `common/src/lib.rs` (`pub enum Command`). -/
inductive Command where
  | Register (client_id : String)
  | RegisterResult (success : Bool) (error : Option String)
  | RequestNewProxyConn (proxy_conn_id : String)
  | NewProxyConn (proxy_conn_id : String)
  | Login (email : String) (pass : String)
  | LoginByToken (token : String)
  | LoginResult (success : Bool) (error : Option String) (token : Option String)
  | Heartbeat (models : Option (List Model))
  | SystemInfo (cpu_usage : F32) (memory_usage : F32) (disk_usage : F32)
      (computer_name : String)
deriving DecidableEq

/-- JSON document tree, the intermediate form of `serde_json`.  Finite floats
keep their bit pattern (`numF32`): ryu prints the shortest representation that
parses back to the same value, so the text layer is lossless on them.
Non-finite floats never appear: `serde_json` serializes them as `null`. -/
inductive Json where
  | null
  | bool (b : Bool)
  | str (s : String)
  | numNat (n : Nat)
  | numF32 (bits : Nat)
  | arr (elems : List Json)
  | obj (fields : List (String × Json))

/-- Serialization of an `f32` field by `serde_json`: a finite value becomes a
number token, a non-finite value becomes `null`. -/
def serializeF32 : F32 → Json
  | .finite b => .numF32 b
  | _ => .null

/-- Deserialization of an `f32` field: only a float number token is accepted
(`null`, in particular, is an invalid type for `f32`). -/
def deserializeF32 : Json → Option F32
  | .numF32 b => some (.finite b)
  | _ => none

def serializeOptStr : Option String → Json
  | none => .null
  | some s => .str s

def deserializeOptStr : Json → Option (Option String)
  | .null => some none
  | .str s => some (some s)
  | _ => none

/-- Field lookup in a serialized JSON object (serde matches fields by name). -/
def jfield (name : String) (fields : List (String × Json)) : Option Json :=
  (fields.find? (fun p => p.1 == name)).map (·.2)

def Model.toJson (m : Model) : Json :=
  .obj [("id", .str m.id), ("object", .str m.object),
        ("created", .numNat m.created), ("owned_by", .str m.owned_by)]

def Model.fromJson : Json → Option Model
  | .obj fields =>
    match jfield "id" fields, jfield "object" fields,
        jfield "created" fields, jfield "owned_by" fields with
    | some (.str i), some (.str o), some (.numNat c), some (.str w) =>
      some ⟨i, o, c, w⟩
    | _, _, _, _ => none
  | _ => none

def decodeModelList : List Json → Option (List Model)
  | [] => some []
  | j :: rest =>
    match Model.fromJson j, decodeModelList rest with
    | some m, some ms => some (m :: ms)
    | _, _ => none

def serializeModels : Option (List Model) → Json
  | none => .null
  | some ms => .arr (ms.map Model.toJson)

def deserializeModels : Json → Option (Option (List Model))
  | .null => some none
  | .arr elems => (decodeModelList elems).map some
  | _ => none

/-- Externally tagged encoding of `Command` produced by the serde derive. -/
def Command.toJson : Command → Json
  | .Register cid => .obj [("Register", .obj [("client_id", .str cid)])]
  | .RegisterResult s e =>
    .obj [("RegisterResult",
      .obj [("success", .bool s), ("error", serializeOptStr e)])]
  | .RequestNewProxyConn pid =>
    .obj [("RequestNewProxyConn", .obj [("proxy_conn_id", .str pid)])]
  | .NewProxyConn pid =>
    .obj [("NewProxyConn", .obj [("proxy_conn_id", .str pid)])]
  | .Login em pw => .obj [("Login", .obj [("email", .str em), ("pass", .str pw)])]
  | .LoginByToken t => .obj [("LoginByToken", .obj [("token", .str t)])]
  | .LoginResult s e t =>
    .obj [("LoginResult",
      .obj [("success", .bool s), ("error", serializeOptStr e),
            ("token", serializeOptStr t)])]
  | .Heartbeat ms => .obj [("Heartbeat", .obj [("models", serializeModels ms)])]
  | .SystemInfo c m d n =>
    .obj [("SystemInfo",
      .obj [("cpu_usage", serializeF32 c), ("memory_usage", serializeF32 m),
            ("disk_usage", serializeF32 d), ("computer_name", .str n)])]

/-- Externally tagged decoding of `Command` (the serde derive dispatches on the
single key of the top-level object, then reads payload fields by name). -/
def Command.fromJson : Json → Option Command
  | .obj [(tag, payload)] =>
    match tag, payload with
    | "Register", .obj fields =>
      match jfield "client_id" fields with
      | some (.str cid) => some (.Register cid)
      | _ => none
    | "RegisterResult", .obj fields =>
      match jfield "success" fields, (jfield "error" fields).bind deserializeOptStr with
      | some (.bool s), some e => some (.RegisterResult s e)
      | _, _ => none
    | "RequestNewProxyConn", .obj fields =>
      match jfield "proxy_conn_id" fields with
      | some (.str pid) => some (.RequestNewProxyConn pid)
      | _ => none
    | "NewProxyConn", .obj fields =>
      match jfield "proxy_conn_id" fields with
      | some (.str pid) => some (.NewProxyConn pid)
      | _ => none
    | "Login", .obj fields =>
      match jfield "email" fields, jfield "pass" fields with
      | some (.str em), some (.str pw) => some (.Login em pw)
      | _, _ => none
    | "LoginByToken", .obj fields =>
      match jfield "token" fields with
      | some (.str t) => some (.LoginByToken t)
      | _ => none
    | "LoginResult", .obj fields =>
      match jfield "success" fields, (jfield "error" fields).bind deserializeOptStr,
          (jfield "token" fields).bind deserializeOptStr with
      | some (.bool s), some e, some t => some (.LoginResult s e t)
      | _, _, _ => none
    | "Heartbeat", .obj fields =>
      ((jfield "models" fields).bind deserializeModels).map Command.Heartbeat
    | "SystemInfo", .obj fields =>
      match (jfield "cpu_usage" fields).bind deserializeF32,
          (jfield "memory_usage" fields).bind deserializeF32,
          (jfield "disk_usage" fields).bind deserializeF32,
          jfield "computer_name" fields with
      | some c, some m, some d, some (.str n) => some (.SystemInfo c m d n)
      | _, _, _, _ => none
    | _, _ => none
  | _ => none

/-- Floating-point fields of a command are all finite (only `SystemInfo`
carries floats). -/
def Command.floatsFinite : Command → Bool
  | .SystemInfo c m d _ => c.isFinite && m.isFinite && d.isFinite
  | _ => true

/-- Big-endian bytes of a 32-bit value (`u32::to_be_bytes`). -/
def u32be (n : Nat) : List Nat :=
  [n / 16777216 % 256, n / 65536 % 256, n / 256 % 256, n % 256]

/-- Encoding performed by `write_command` in `common/src/lib.rs`: serialize the
command to JSON bytes (`render` is the text layer of `serde_json`), prefix the
payload with its length cast to `u32` (wrapping, as `as u32` does) in
big-endian order. -/
def write_command (render : Json → List Nat) (c : Command) : List Nat :=
  u32be ((render c.toJson).length % 4294967296) ++ render c.toJson

/-- Decoding performed by `read_command`: read exactly four length bytes, then
exactly that many payload bytes (a short read is an error), then deserialize
(`parse` is the text layer of `serde_json`, `Command.fromJson` the derive).
Returns the decoded command and the bytes left in the stream. -/
def read_command (parse : List Nat → Option Json) (input : List Nat) :
    Option (Command × List Nat) :=
  match input with
  | b0 :: b1 :: b2 :: b3 :: rest =>
    let len := ((b0 * 256 + b1) * 256 + b2) * 256 + b3
    if len ≤ rest.length then
      match parse (rest.take len) with
      | some j =>
        match Command.fromJson j with
        | some c => some (c, rest.drop len)
        | none => none
      | none => none
    else none
  | _ => none

/-- Command whose float payload is NaN; `write_command` serializes the NaN as
JSON `null`, which `read_command` then fails to deserialize. -/
def cexNanCommand : Command := .SystemInfo .nan .zero .zero "host"

/-- Per-client metrics record, from `frps/src/main.rs` (`struct SystemInfo`). -/
structure SystemInfo where
  cpu_usage : F32
  memory_usage : F32
  disk_usage : F32
  last_heartbeat : Nat
deriving DecidableEq

/-- Registry record, from `frps/src/main.rs` (`struct ClientInfo`); the writer
half of the control connection is identified by an abstract handle. -/
structure ClientInfo where
  writer : Nat
  authed : Bool
  system_info : Option SystemInfo
  connected_at : Nat
  models : Option (List Model)
deriving DecidableEq

/-- Effect of `Command::Heartbeat { models }` on one registry record
(`client_loop`, `frps/src/main.rs`): the advertised catalog is overwritten
with the received `Option`, the heartbeat timestamp is refreshed if a metrics
record exists, and an all-zero metrics record is created otherwise. -/
def applyHeartbeat (ci : ClientInfo) (models : Option (List Model)) (now : Nat) :
    ClientInfo :=
  { ci with
    models := models,
    system_info :=
      match ci.system_info with
      | some si => some { si with last_heartbeat := now }
      | none => some { cpu_usage := F32.zero, memory_usage := F32.zero,
                       disk_usage := F32.zero, last_heartbeat := now } }

/-- Heartbeat handling on the whole registry: mutate the entry for `client_id`
in place if present (`clients.get_mut`), otherwise do nothing. -/
def heartbeatStep (clients : List (String × ClientInfo)) (client_id : String)
    (models : Option (List Model)) (now : Nat) : List (String × ClientInfo) :=
  clients.map (fun p => if p.1 = client_id then (p.1, applyHeartbeat p.2 models now) else p)

/-- Result of processing one `Register` message in `handle_single_client`. -/
structure RegisterOutcome where
  clients : List (String × ClientInfo)
  reply : Command
  closed : Bool
deriving DecidableEq

/-- Registration step from `handle_single_client` (`frps/src/main.rs`): a
taken id leaves the registry unchanged, answers a negative `RegisterResult`
and closes the connection (the handler returns an error); a free id is
inserted (before the positive reply is written) with `authed = true` — the
handler only reaches registration after a successful login. -/
def registerStep (clients : List (String × ClientInfo)) (client_id : String)
    (writer : Nat) (now : Nat) : RegisterOutcome :=
  if (alookup client_id clients).isSome then
    { clients := clients,
      reply := .RegisterResult false (some "Client ID already in use"),
      closed := true }
  else
    { clients := (client_id,
        { writer := writer, authed := true, system_info := none,
          connected_at := now, models := none }) :: clients,
      reply := .RegisterResult true none,
      closed := false }

/-- Concrete model used by counterexamples and witnesses. -/
def cexModelA : Model := { id := "m1", object := "model", created := 0, owned_by := "lib" }

/-- Registered client advertising `[m1]` and holding no metrics record. -/
def cexClientHb : ClientInfo :=
  { writer := 0, authed := true, system_info := none, connected_at := 0,
    models := some [cexModelA] }

/-- Registered client holding a metrics record with non-zero readings. -/
def cexClientSys : ClientInfo :=
  { writer := 1, authed := true,
    system_info := some { cpu_usage := F32.finite 5, memory_usage := F32.finite 6,
                          disk_usage := F32.finite 7, last_heartbeat := 3 },
    connected_at := 0, models := none }

/-- Header of the parsed HTTP head (`httparse::Header`); `value` is the UTF-8
decoding of the header bytes, `none` when they are not valid UTF-8 (the Rust
code treats that the same as a missing header). -/
structure HttpHeaderView where
  name : String
  value : Option String
deriving DecidableEq

/-- Method, path and headers of a successfully parsed complete HTTP head
(`httparse::Request` after `Status::Complete`). -/
structure HttpHeadView where
  method : Option String
  path : Option String
  headers : List HttpHeaderView
deriving DecidableEq

/-- Outcome of interpreting the bytes after the head inside the peeked window:
`std::str::from_utf8` may fail, then `serde_json::from_str::<ChatCompletionRequest>`
may fail, otherwise it yields the top-level "model" string. -/
inductive BodyParse where
  | notUtf8
  | badJson
  | okModel (model : String)
deriving DecidableEq

/-- Observable outcome of `route_public_connection`: the synthetic HTTP error
response sent (status code and message handed to `send_http_error_response`),
the client to which a `RequestNewProxyConn { proxy_conn_id }` write was issued,
the resulting registry and pairing table, whether the user stream was dropped,
the warnings logged, and whether the function returned `Ok`. -/
structure RouteOutcome where
  errSent : Option (Nat × String)
  cmdTarget : Option (String × String)
  clients : List (String × ClientInfo)
  pending : List (String × Nat)
  userClosed : Bool
  warnings : List String
  isOk : Bool

/-- ASCII lowercase of one character (the header names and the "Bearer "
scheme compared by the code are ASCII; Rust's `to_lowercase` agrees with this
on ASCII input). -/
def lowerChar (c : Char) : Char :=
  if 65 ≤ c.toNat ∧ c.toNat ≤ 90 then Char.ofNat (c.toNat + 32) else c

/-- Lowercasing of a string, character by character. -/
def asciiLower (s : String) : String := ⟨s.data.map lowerChar⟩

/-- First `Authorization` header (case-insensitive name match), decoded as
UTF-8 — from `route_public_connection` in `frps/src/main.rs`. -/
def auth_header (headers : List HttpHeaderView) : Option String :=
  (headers.find? (fun h => asciiLower h.name == "authorization")).bind (fun h => h.value)

/-- Key extraction: strip a case-insensitive "Bearer " prefix if present
(dropping the first seven characters, which for this ASCII prefix coincides
with the byte slice `&auth_value[7..]`), otherwise use the raw header value. -/
def provided_key (auth_value : String) : String :=
  if "bearer ".data.isPrefixOf (asciiLower auth_value).data
  then ⟨auth_value.data.drop 7⟩ else auth_value

/-- Advertised catalog contains a model with the given id. -/
def ClientInfo.advertises (ci : ClientInfo) (model_name : String) : Bool :=
  match ci.models with
  | some ms => ms.any (fun m => m.id == model_name)
  | none => false

/-- Direct embedding of `find_client_by_model` (`frps/src/main.rs`): first
registered client whose advertised catalog contains the model (iteration
order of the `HashMap` becomes list order). -/
def find_client_by_model (model_name : String)
    (clients : List (String × ClientInfo)) : Option String :=
  (clients.find? (fun p => p.2.advertises model_name)).map (·.1)

/-- Tail of `route_public_connection` once a client id has been chosen: look
the record up, require it to be authenticated, insert the pair into the
pairing table, then write `RequestNewProxyConn` under the record's writer
lock; on write failure remove the chosen client from the registry, remove the
pair again (dropping — closing — the user stream) and return the error. -/
def dispatchToClient (clients : List (String × ClientInfo)) (pending : List (String × Nat))
    (chosen_client_id proxy_conn_id : String) (user_stream : Nat) (writeFails : Bool)
    (warnings : List String) : RouteOutcome :=
  match alookup chosen_client_id clients with
  | none =>
    { errSent := none, cmdTarget := none, clients := clients, pending := pending,
      userClosed := true, warnings := warnings, isOk := false }
  | some client_info =>
    if client_info.authed then
      if writeFails then
        { errSent := none, cmdTarget := some (chosen_client_id, proxy_conn_id),
          clients := aremove chosen_client_id clients,
          pending := aremove proxy_conn_id ((proxy_conn_id, user_stream) :: pending),
          userClosed := true, warnings := warnings, isOk := false }
      else
        { errSent := none, cmdTarget := some (chosen_client_id, proxy_conn_id),
          clients := clients, pending := (proxy_conn_id, user_stream) :: pending,
          userClosed := false, warnings := warnings, isOk := true }
    else
      { errSent := none, cmdTarget := none, clients := clients, pending := pending,
        userClosed := true, warnings := warnings, isOk := false }

/-- Random-selection fallback of `route_public_connection`: snapshot the
registry keys; with no registered client reply with the synthetic 503,
otherwise pick a uniformly random key (the RNG draw is the `choice`
parameter) and dispatch to it.  The unreachable `none` branch models the
`ok_or_else` error on an empty choice. -/
def randomFallback (clients : List (String × ClientInfo)) (pending : List (String × Nat))
    (proxy_conn_id : String) (user_stream choice : Nat) (writeFails : Bool)
    (warns : List String) : RouteOutcome :=
  let client_ids := clients.map Prod.fst
  if client_ids.isEmpty then
    { errSent := some (503, "No active clients available"), cmdTarget := none,
      clients := clients, pending := pending, userClosed := true,
      warnings := warns ++
        ["No active clients available to handle new public connection."],
      isOk := true }
  else
    match client_ids.get? (choice % client_ids.length) with
    | some cid =>
      dispatchToClient clients pending cid proxy_conn_id user_stream writeFails warns
    | none =>
      { errSent := none, cmdTarget := none, clients := clients,
        pending := pending, userClosed := true, warnings := warns, isOk := false }

/-- Selection and dispatch section of `route_public_connection`, reached once
API-key validation has succeeded: for a `POST /v1/chat/completions` whose
peeked body yields a model name, try `find_client_by_model` (warning and
falling back on a parse failure or a model miss); any other request goes
straight to random selection. -/
def routeAuthorized (clients : List (String × ClientInfo)) (pending : List (String × Nat))
    (req : HttpHeadView) (body : BodyParse) (proxy_conn_id : String)
    (user_stream choice : Nat) (writeFails : Bool) : RouteOutcome :=
  let sel : Option String × List String :=
    if req.method = some "POST" ∧ req.path = some "/v1/chat/completions" then
      match body with
      | .notUtf8 =>
        (none, ["Could not parse body as UTF-8. Falling back to random."])
      | .badJson =>
        (none, ["Could not parse chat completion body. Falling back to random."])
      | .okModel m =>
        match find_client_by_model m clients with
        | some cid => (some cid, [])
        | none =>
          (none, ["No client found for model \x27" ++ m ++
                  "\x27. Falling back to random."])
    else (none, [])
  match sel.1 with
  | some cid =>
    dispatchToClient clients pending cid proxy_conn_id user_stream writeFails sel.2
  | none => randomFallback clients pending proxy_conn_id user_stream choice
      writeFails sel.2

/-- Embedding of `route_public_connection` (`frps/src/main.rs`).  Inputs that
the Rust function obtains from the environment are explicit parameters: the
result of the httparse head parse on the peeked window (`parse`), the body
interpretation (`body`), the freshly generated UUID (`proxy_conn_id`), the
RNG draw used by `choose` (`choice`), and whether the `write_command` to the
chosen client fails (`writeFails`). -/
def route_public_connection (clients : List (String × ClientInfo))
    (pending : List (String × Nat)) (parse : Option HttpHeadView) (body : BodyParse)
    (api_key : String) (proxy_conn_id : String) (user_stream : Nat) (choice : Nat)
    (writeFails : Bool) : RouteOutcome :=
  match parse with
  | none =>
    { errSent := some (400, "Invalid HTTP request format"), cmdTarget := none,
      clients := clients, pending := pending, userClosed := true,
      warnings := ["Received non-HTTP or incomplete HTTP request"], isOk := true }
  | some req =>
    match auth_header req.headers with
    | none =>
      { errSent := some (401, "Missing API key in Authorization header"),
        cmdTarget := none, clients := clients, pending := pending, userClosed := true,
        warnings := ["No Authorization header found"], isOk := true }
    | some auth_value =>
      if provided_key auth_value = api_key then
        routeAuthorized clients pending req body proxy_conn_id user_stream choice
          writeFails
      else
        { errSent := some (401, "Invalid API key"), cmdTarget := none,
          clients := clients, pending := pending, userClosed := true,
          warnings := ["Invalid API key provided in Authorization header"], isOk := true }

/-- Request head used by the router witnesses: a `POST /v1/chat/completions`
carrying `Authorization: Bearer abc123`. -/
def cexHead : HttpHeadView :=
  { method := some "POST", path := some "/v1/chat/completions",
    headers := [{ name := "Authorization", value := some "Bearer abc123" }] }

/-- Request head with no Authorization header. -/
def cexHeadNoAuth : HttpHeadView :=
  { method := some "GET", path := some "/", headers := [{ name := "Host", value := some "x" }] }

/-- Reason phrase chosen by `send_http_error_response` (`frps/src/main.rs`):
only 400, 401, 403 and 500 get specific phrases, every other status code gets
"Error". -/
def status_text (status_code : Nat) : String :=
  if status_code = 400 then "Bad Request"
  else if status_code = 401 then "Unauthorized"
  else if status_code = 403 then "Forbidden"
  else if status_code = 500 then "Internal Server Error"
  else "Error"

/-- Lowercase hexadecimal digit, as used by serde_json's string escaper. -/
def hexDigit (n : Nat) : Char :=
  if n = 0 then '0' else if n = 1 then '1' else if n = 2 then '2'
  else if n = 3 then '3' else if n = 4 then '4' else if n = 5 then '5'
  else if n = 6 then '6' else if n = 7 then '7' else if n = 8 then '8'
  else if n = 9 then '9' else if n = 10 then 'a' else if n = 11 then 'b'
  else if n = 12 then 'c' else if n = 13 then 'd' else if n = 14 then 'e' else 'f'

/-- JSON string escaping of one character as performed by serde_json. -/
def escapeJsonChar (c : Char) : String :=
  if c = '"' then "\\\""
  else if c = '\\' then "\\\\"
  else if c.toNat = 8 then "\\b"
  else if c.toNat = 9 then "\\t"
  else if c.toNat = 10 then "\\n"
  else if c.toNat = 12 then "\\f"
  else if c.toNat = 13 then "\\r"
  else if c.toNat < 32 then
    "\\u00" ++ String.singleton (hexDigit (c.toNat / 16)) ++
      String.singleton (hexDigit (c.toNat % 16))
  else String.singleton c

def escapeJsonString (s : String) : String :=
  String.join (s.data.map escapeJsonChar)

/-- Error envelope `ApiResponse::<()>::error` from `frps/src/main.rs`:
`success` false, `data` `None`, the given message, and the current UTC time
(passed in as its already-rendered RFC 3339 string). -/
structure ApiResponse where
  success : Bool
  data : Option Unit
  message : String
  timestamp : String
deriving DecidableEq

def ApiResponse.error (message : String) (now : String) : ApiResponse :=
  { success := false, data := none, message := message, timestamp := now }

/-- serde_json rendering of the envelope, in declaration order of the struct
fields; both `None` and `Some(())` for the `data : Option<()>` field render as
`null`. -/
def renderApiResponse (r : ApiResponse) : String :=
  "\x7b\"success\":" ++ (if r.success then "true" else "false") ++
  ",\"data\":null,\"message\":\"" ++ escapeJsonString r.message ++
  "\",\"timestamp\":\"" ++ escapeJsonString r.timestamp ++ "\"\x7d"

/-- Status line of the synthetic response. -/
def statusLine (status_code : Nat) : String :=
  "HTTP/1.1 " ++ toString status_code ++ " " ++ status_text status_code

/-- Embedding of `send_http_error_response` (`frps/src/main.rs`): the bytes
written to the user stream before it is flushed and closed. -/
def send_http_error_response (status_code : Nat) (error_message : String)
    (now : String) : String :=
  statusLine status_code ++
  "\r\nContent-Type: application/json\r\nContent-Length: " ++
  toString (renderApiResponse (ApiResponse.error error_message now)).utf8ByteSize ++
  "\r\nConnection: close\r\n\r\n" ++
  renderApiResponse (ApiResponse.error error_message now)

/-- Resolution of the `tokio::select!` race inside `join_streams`
(`common/src/lib.rs`): which copy future completes first, and how many bytes
the other direction had managed to transfer when the select returned and
cancelled it. -/
structure SpliceSchedule where
  aFinishesFirst : Bool
  loserBytes : Nat

/-- Embedding of `join_streams`: the two directions are copied concurrently,
but the `select!` returns — dropping, hence cancelling, the other copy — as
soon as one direction completes (EOF or error).  Given the bytes each side has
to send (`aData` for A→B, `bData` for B→A) and the schedule, the result is the
bytes actually delivered in each direction before both streams are dropped. -/
def join_streams (aData bData : List Nat) (sch : SpliceSchedule) :
    List Nat × List Nat :=
  if sch.aFinishesFirst then (aData, bData.take sch.loserBytes)
  else (aData.take sch.loserBytes, bData)

/-- Removal of the first occurrence of a key (the only occurrence, for the
`HashMap`-backed sets being modelled). -/
def removeFirst (x : String) : List String → List String
  | [] => []
  | y :: rest => if y = x then rest else y :: removeFirst x rest

/-- Number of occurrences of a key. -/
def occ (x : String) : List String → Nat
  | [] => 0
  | y :: rest => (if y = x then 1 else 0) + occ x rest

/-- Operations of the frps server that touch the pairing table or the client
registry, one constructor per code site: the router's pairing-table insert
(`pending_connections.insert` before the `RequestNewProxyConn` write), a
successful write, a failed write and its cleanup (`clients.remove`,
`pending_connections.remove` — dropping, hence closing, the stored user
stream), the proxy listener's callback (`pending.remove`), a registration
insert, a control-reader disconnect purge, and the read-only admin handlers
(`get_stats`, `get_connections`, `get_pending_connections`), which only lock
and read. -/
inductive PairEv where
  | routeInsert (pid cid : String) (user_stream : Nat)
  | routeWriteOk (pid cid : String)
  | routeWriteFail (pid cid : String)
  | proxyCallback (pid : String)
  | registerClient (cid : String)
  | clientDisconnect (cid : String)
  | adminRead
deriving DecidableEq

/-- Pairing-table keys and registry keys of the server. -/
structure SrvState where
  pending : List String
  clients : List String
deriving DecidableEq

/-- Effect of one operation on the shared state, read off the code sites
listed at `PairEv`. -/
def PairEv.step (s : SrvState) : PairEv → SrvState
  | .routeInsert pid _ _ => { s with pending := pid :: s.pending }
  | .routeWriteOk _ _ => s
  | .routeWriteFail pid cid =>
    { pending := removeFirst pid s.pending, clients := removeFirst cid s.clients }
  | .proxyCallback pid => { s with pending := removeFirst pid s.pending }
  | .registerClient cid => { s with clients := cid :: s.clients }
  | .clientDisconnect cid => { s with clients := removeFirst cid s.clients }
  | .adminRead => s

def runTrace (s : SrvState) : List PairEv → SrvState
  | [] => s
  | e :: tr => runTrace (PairEv.step s e) tr

/-- Event `e`, fired in state `s`, actually removes `pid` from the pairing
table (a removal of an absent key is a no-op). -/
def removesPair (s : SrvState) (pid : String) : PairEv → Bool
  | .routeWriteFail p _ => p = pid ∧ pid ∈ s.pending
  | .proxyCallback p => p = pid ∧ pid ∈ s.pending
  | _ => false

/-- Event inserts `pid` into the pairing table. -/
def insertsPair (pid : String) : PairEv → Bool
  | .routeInsert p _ _ => p = pid
  | _ => false

/-- Number of effective removals of `pid` along a trace started in `s`. -/
def remCount (s : SrvState) (tr : List PairEv) (pid : String) : Nat :=
  match tr with
  | [] => 0
  | e :: tr =>
    (if removesPair s pid e then 1 else 0) + remCount (PairEv.step s e) tr pid

/-- Number of insertions of `pid` along a trace. -/
def insCount (tr : List PairEv) (pid : String) : Nat :=
  tr.countP (insertsPair pid)

/-- The router's write failure, and only it, also purges the chosen client
from the registry; a pair event is a removal of the pair only when it is the
router's write-failure cleanup or the proxy listener's callback. -/
def isTrigger (pid : String) (e : PairEv) : Prop :=
  (∃ c, e = .routeWriteFail pid c) ∨ e = .proxyCallback pid

theorem alookup_mem {α : Type} {k : String} {v : α} :
    ∀ {l : List (String × α)}, alookup k l = some v → (k, v) ∈ l := by
  intro l
  induction l with
  | nil => intro h; simp [alookup] at h
  | cons p rest ih =>
    intro h
    obtain ⟨k₁, v₁⟩ := p
    by_cases hk : k₁ = k
    · simp only [alookup, if_pos hk, Option.some.injEq] at h
      subst hk
      subst h
      exact List.mem_cons_self _ _
    · simp only [alookup, if_neg hk] at h
      exact List.mem_cons_of_mem _ (ih h)

theorem mem_keys_alookup {α : Type} {k : String} :
    ∀ {l : List (String × α)}, k ∈ l.map Prod.fst → ∃ v, alookup k l = some v := by
  intro l
  induction l with
  | nil => intro h; simp at h
  | cons p rest ih =>
    intro h
    by_cases hk : p.1 = k
    · exact ⟨p.2, by simp [alookup, hk]⟩
    · simp only [List.map_cons, List.mem_cons] at h
      rcases h with h | h
      · exact absurd h.symm hk
      · rcases ih h with ⟨v, hv⟩
        exact ⟨v, by simp only [alookup]; rw [if_neg hk]; exact hv⟩

theorem alookup_of_mem_nodup {α : Type} {k : String} {v : α} :
    ∀ {l : List (String × α)}, (l.map Prod.fst).Nodup → (k, v) ∈ l →
      alookup k l = some v := by
  intro l
  induction l with
  | nil => intro _ h; simp at h
  | cons p rest ih =>
    intro hnd hmem
    rcases List.mem_cons.1 hmem with h | h
    · simp [alookup, ← h]
    · have hk : p.1 ≠ k := by
        intro hk
        have : k ∈ rest.map Prod.fst := List.mem_map_of_mem Prod.fst h
        rw [← hk] at this
        exact (List.nodup_cons.1 hnd).1 this
      simp only [alookup]
      rw [if_neg hk]
      exact ih (List.nodup_cons.1 hnd).2 h

theorem modelJson_roundtrip (m : Model) : Model.fromJson m.toJson = some m := by
  cases m; rfl

theorem decodeModelList_map_toJson (ms : List Model) :
    decodeModelList (ms.map Model.toJson) = some ms := by
  induction ms with
  | nil => rfl
  | cons m rest ih =>
    simp only [List.map_cons, decodeModelList, modelJson_roundtrip m, ih]

theorem deserializeModels_serializeModels (ms : Option (List Model)) :
    deserializeModels (serializeModels ms) = some ms := by
  cases ms with
  | none => rfl
  | some l =>
    simp only [serializeModels, deserializeModels, decodeModelList_map_toJson l,
      Option.map_some']

theorem deserializeOptStr_serializeOptStr (o : Option String) :
    deserializeOptStr (serializeOptStr o) = some o := by
  cases o <;> rfl

/-- Round-trip of the serde derive at the JSON-tree level: holds whenever every
floating-point field is finite.  (A non-finite float serializes as `null`,
which does not deserialize back into `f32`.) -/
theorem commandJson_roundtrip (c : Command) (h : c.floatsFinite = true) :
    Command.fromJson c.toJson = some c := by
  cases c with
  | Register cid => rfl
  | RegisterResult s e => cases e <;> rfl
  | RequestNewProxyConn pid => rfl
  | NewProxyConn pid => rfl
  | Login em pw => rfl
  | LoginByToken t => rfl
  | LoginResult s e t => cases e <;> cases t <;> rfl
  | Heartbeat ms =>
    show Option.map Command.Heartbeat (deserializeModels (serializeModels ms)) =
      some (.Heartbeat ms)
    rw [deserializeModels_serializeModels]
    rfl
  | SystemInfo cu mu du n =>
    cases cu with
    | finite bc =>
      cases mu with
      | finite bm =>
        cases du with
        | finite bd => rfl
        | nan => simp [Command.floatsFinite, F32.isFinite] at h
        | infPos => simp [Command.floatsFinite, F32.isFinite] at h
        | infNeg => simp [Command.floatsFinite, F32.isFinite] at h
      | nan => simp [Command.floatsFinite, F32.isFinite] at h
      | infPos => simp [Command.floatsFinite, F32.isFinite] at h
      | infNeg => simp [Command.floatsFinite, F32.isFinite] at h
    | nan => simp [Command.floatsFinite, F32.isFinite] at h
    | infPos => simp [Command.floatsFinite, F32.isFinite] at h
    | infNeg => simp [Command.floatsFinite, F32.isFinite] at h

theorem u32be_decode (n : Nat) (h : n < 4294967296) :
    ((n / 16777216 % 256 * 256 + n / 65536 % 256) * 256 + n / 256 % 256) * 256
        + n % 256 = n := by
  omega

/-- Claim C5 (amended): encoding a `Command` with `write_command` (4-byte
big-endian length prefix, then exactly that many bytes of JSON) and decoding
with `read_command` returns an equal value, provided every floating-point
field is finite and the JSON payload length fits in a `u32`; the text layer
(`render`/`parse`) is `serde_json`, assumed to invert on the produced tree. -/
theorem frpx_c5_roundtrip (render : Json → List Nat) (parse : List Nat → Option Json)
    (c : Command) (hfin : c.floatsFinite = true)
    (hcodec : parse (render c.toJson) = some c.toJson)
    (hlen : (render c.toJson).length < 4294967296) (extra : List Nat) :
    read_command parse (write_command render c ++ extra) = some (c, extra) := by
  have hmod : (render c.toJson).length % 4294967296 = (render c.toJson).length :=
    Nat.mod_eq_of_lt hlen
  have hinput : write_command render c ++ extra =
      (render c.toJson).length / 16777216 % 256 :: (render c.toJson).length / 65536 % 256 ::
      (render c.toJson).length / 256 % 256 :: (render c.toJson).length % 256 ::
      (render c.toJson ++ extra) := by
    simp [write_command, u32be, hmod]
  rw [hinput]
  show (if ((((render c.toJson).length / 16777216 % 256) * 256 +
        (render c.toJson).length / 65536 % 256) * 256 +
        (render c.toJson).length / 256 % 256) * 256 +
        (render c.toJson).length % 256 ≤ (render c.toJson ++ extra).length then _ else none) =
    some (c, extra)
  rw [u32be_decode (render c.toJson).length hlen]
  rw [if_pos (by simp)]
  simp only [List.take_left, List.drop_left, hcodec, commandJson_roundtrip c hfin]

/-- Witness for Claim C5 (amended), at a concrete command and a concrete
(point-correct) text codec. -/
theorem frpx_c5_roundtrip_witness :
    (Command.Register "a").floatsFinite = true ∧
    ((fun _ => [0]) (Command.toJson (.Register "a")) : List Nat).length < 4294967296 ∧
    read_command (fun _ => some (Command.toJson (.Register "a")))
      (write_command (fun _ => [0]) (.Register "a") ++ [7]) = some (.Register "a", [7]) :=
  ⟨rfl, by decide,
    frpx_c5_roundtrip (fun _ => [0]) (fun _ => some (Command.toJson (.Register "a")))
      (.Register "a") rfl rfl (by decide) [7]⟩

/-- Counterexample to Claim C5 as stated: for the command
`SystemInfo { cpu_usage: f32::NAN, .. }`, `write_command` emits `null` for the
NaN field (serde_json behaviour) and `read_command` then fails, so
encode-then-decode does not yield the original value. -/
theorem frpx_c5_counterexample :
    Command.fromJson (Command.toJson cexNanCommand) = none ∧
    read_command (fun _ => some (Command.toJson cexNanCommand))
      (write_command (fun _ => [0]) cexNanCommand) = none := by
  exact ⟨rfl, rfl⟩

theorem alookup_heartbeatStep (client_id : String) (models : Option (List Model))
    (now : Nat) :
    ∀ clients : List (String × ClientInfo),
      alookup client_id (heartbeatStep clients client_id models now) =
        (alookup client_id clients).map (fun ci => applyHeartbeat ci models now) := by
  intro clients
  induction clients with
  | nil => rfl
  | cons p rest ih =>
    obtain ⟨k, v⟩ := p
    by_cases hk : k = client_id
    · subst hk
      have hstep : heartbeatStep ((k, v) :: rest) k models now =
          (k, applyHeartbeat v models now) :: heartbeatStep rest k models now := by
        simp [heartbeatStep]
      rw [hstep]
      show (if k = k then some (applyHeartbeat v models now) else _) = _
      rw [if_pos rfl]
      simp [alookup]
    · simp only [heartbeatStep, List.map_cons] at ih ⊢
      rw [if_neg hk]
      simp only [alookup, if_neg hk]
      exact ih

/-- Claim C4 (amended): on `Heartbeat { models }` the server updates the
client's last-heartbeat timestamp (creating a metrics record if none exists),
overwrites the advertised catalog with the received `Option` — so a heartbeat
carrying no list clears the previously advertised catalog — and leaves the
stored cpu/memory/disk readings intact. -/
theorem frpx_c4_heartbeat_effect (clients : List (String × ClientInfo))
    (client_id : String) (ci : ClientInfo) (models : Option (List Model)) (now : Nat)
    (hci : alookup client_id clients = some ci) :
    alookup client_id (heartbeatStep clients client_id models now) =
      some (applyHeartbeat ci models now) ∧
    (applyHeartbeat ci models now).models = models ∧
    (∀ si, ci.system_info = some si →
      (applyHeartbeat ci models now).system_info =
        some { si with last_heartbeat := now }) := by
  refine ⟨?_, rfl, ?_⟩
  · rw [alookup_heartbeatStep, hci]
    rfl
  · intro si hsi
    simp [applyHeartbeat, hsi]

/-- Witness for Claim C4 (amended) on a client with stored metrics. -/
theorem frpx_c4_heartbeat_effect_witness :
    alookup "b" [("b", cexClientSys)] = some cexClientSys ∧
    alookup "b" (heartbeatStep [("b", cexClientSys)] "b" (some [cexModelA]) 9) =
      some (applyHeartbeat cexClientSys (some [cexModelA]) 9) ∧
    (applyHeartbeat cexClientSys (some [cexModelA]) 9).models = some [cexModelA] ∧
    (applyHeartbeat cexClientSys (some [cexModelA]) 9).system_info =
      some { cpu_usage := F32.finite 5, memory_usage := F32.finite 6,
             disk_usage := F32.finite 7, last_heartbeat := 9 } := by
  have h := frpx_c4_heartbeat_effect [("b", cexClientSys)] "b" cexClientSys
    (some [cexModelA]) 9 (by decide)
  exact ⟨by decide, h.1, h.2.1,
    h.2.2 { cpu_usage := F32.finite 5, memory_usage := F32.finite 6,
            disk_usage := F32.finite 7, last_heartbeat := 3 } rfl⟩

/-- Counterexample to Claim C4 as stated: a heartbeat carrying no model list
does not leave the previously advertised catalog in place — `client_loop`
assigns the received `Option` unconditionally, clearing the catalog. -/
theorem frpx_c4_counterexample :
    cexClientHb.models = some [cexModelA] ∧
    (alookup "a1" (heartbeatStep [("a1", cexClientHb)] "a1" none 7)).map
      ClientInfo.models = some none ∧
    ((alookup "a1" (heartbeatStep [("a1", cexClientHb)] "a1" none 7)).map
      ClientInfo.models ≠ some cexClientHb.models) := by
  refine ⟨rfl, by decide, by decide⟩

/-- Claim C9: a heartbeat for a registered client with no stored metrics
creates a metrics record with all readings 0.0 and the current time as
last-heartbeat. -/
theorem frpx_c9_heartbeat_creates_zero_metrics (clients : List (String × ClientInfo))
    (client_id : String) (ci : ClientInfo) (models : Option (List Model)) (now : Nat)
    (hci : alookup client_id clients = some ci) (hnone : ci.system_info = none) :
    alookup client_id (heartbeatStep clients client_id models now) =
      some { ci with
        models := models,
        system_info := some { cpu_usage := F32.zero, memory_usage := F32.zero,
                              disk_usage := F32.zero, last_heartbeat := now } } := by
  rw [alookup_heartbeatStep, hci]
  simp [applyHeartbeat, hnone]

/-- Witness for Claim C9. -/
theorem frpx_c9_heartbeat_creates_zero_metrics_witness :
    alookup "a1" [("a1", cexClientHb)] = some cexClientHb ∧
    cexClientHb.system_info = none ∧
    alookup "a1" (heartbeatStep [("a1", cexClientHb)] "a1" (some [cexModelA]) 4) =
      some { cexClientHb with
        models := some [cexModelA],
        system_info := some { cpu_usage := F32.zero, memory_usage := F32.zero,
                              disk_usage := F32.zero, last_heartbeat := 4 } } :=
  ⟨by decide, rfl,
    frpx_c9_heartbeat_creates_zero_metrics [("a1", cexClientHb)] "a1" cexClientHb
      (some [cexModelA]) 4 (by decide) rfl⟩

/-- Claim C6: a `Register` for a taken id gets
`RegisterResult { success: false, error: "Client ID already in use" }`, the
connection is closed, and the existing record is untouched; a free id is
inserted (immediately observable) and gets `RegisterResult { success: true }`. -/
theorem frpx_c6_duplicate_registration (clients : List (String × ClientInfo))
    (client_id : String) (writer now : Nat) :
    (∀ existing, alookup client_id clients = some existing →
      (registerStep clients client_id writer now).clients = clients ∧
      (registerStep clients client_id writer now).reply =
        .RegisterResult false (some "Client ID already in use") ∧
      (registerStep clients client_id writer now).closed = true ∧
      alookup client_id (registerStep clients client_id writer now).clients =
        some existing) ∧
    (alookup client_id clients = none →
      (registerStep clients client_id writer now).reply = .RegisterResult true none ∧
      (registerStep clients client_id writer now).closed = false ∧
      alookup client_id (registerStep clients client_id writer now).clients =
        some { writer := writer, authed := true, system_info := none,
               connected_at := now, models := none }) := by
  constructor
  · intro existing hex
    have hsome : (alookup client_id clients).isSome = true := by rw [hex]; rfl
    unfold registerStep
    rw [if_pos hsome]
    exact ⟨rfl, rfl, rfl, hex⟩
  · intro hfree
    have hnone : ¬ (alookup client_id clients).isSome = true := by rw [hfree]; simp
    unfold registerStep
    rw [if_neg hnone]
    refine ⟨rfl, rfl, ?_⟩
    simp [alookup]

/-- Witness for Claim C6, exercising both the duplicate and the free branch. -/
theorem frpx_c6_duplicate_registration_witness :
    alookup "a1" [("a1", cexClientHb)] = some cexClientHb ∧
    (registerStep [("a1", cexClientHb)] "a1" 2 5).clients = [("a1", cexClientHb)] ∧
    (registerStep [("a1", cexClientHb)] "a1" 2 5).reply =
      .RegisterResult false (some "Client ID already in use") ∧
    (registerStep [("a1", cexClientHb)] "a1" 2 5).closed = true ∧
    alookup "b2" ([] : List (String × ClientInfo)) = none ∧
    (registerStep [] "b2" 3 6).reply = .RegisterResult true none ∧
    alookup "b2" (registerStep [] "b2" 3 6).clients =
      some { writer := 3, authed := true, system_info := none,
             connected_at := 6, models := none } := by
  have h1 := (frpx_c6_duplicate_registration [("a1", cexClientHb)] "a1" 2 5).1
    cexClientHb (by decide)
  have h2 := (frpx_c6_duplicate_registration [] "b2" 3 6).2 rfl
  exact ⟨by decide, h1.1, h1.2.1, h1.2.2.1, rfl, h2.1, h2.2.2⟩

theorem route_missing_auth (clients : List (String × ClientInfo))
    (pending : List (String × Nat)) (req : HttpHeadView) (body : BodyParse)
    (api_key proxy_conn_id : String) (user_stream choice : Nat) (writeFails : Bool)
    (hnone : auth_header req.headers = none) :
    route_public_connection clients pending (some req) body api_key proxy_conn_id
        user_stream choice writeFails =
      { errSent := some (401, "Missing API key in Authorization header"),
        cmdTarget := none, clients := clients, pending := pending, userClosed := true,
        warnings := ["No Authorization header found"], isOk := true } := by
  simp only [route_public_connection]
  rw [hnone]

theorem route_invalid_key (clients : List (String × ClientInfo))
    (pending : List (String × Nat)) (req : HttpHeadView) (body : BodyParse)
    (api_key proxy_conn_id : String) (user_stream choice : Nat) (writeFails : Bool)
    (auth_value : String) (hsome : auth_header req.headers = some auth_value)
    (hkey : ¬ provided_key auth_value = api_key) :
    route_public_connection clients pending (some req) body api_key proxy_conn_id
        user_stream choice writeFails =
      { errSent := some (401, "Invalid API key"), cmdTarget := none,
        clients := clients, pending := pending, userClosed := true,
        warnings := ["Invalid API key provided in Authorization header"],
        isOk := true } := by
  simp only [route_public_connection]
  rw [hsome]
  simp only [if_neg hkey]

/-- Claim C3: on a complete HTTP head, a missing `Authorization` header gets
HTTP 401 "Missing API key in Authorization header"; a key differing from the
configured one (after optional case-insensitive "Bearer " stripping) gets
HTTP 401 "Invalid API key"; both close the connection and leave the registry
and the pairing table unchanged. -/
theorem frpx_c3_auth_rejection (clients : List (String × ClientInfo))
    (pending : List (String × Nat)) (req : HttpHeadView) (body : BodyParse)
    (api_key proxy_conn_id : String) (user_stream choice : Nat) (writeFails : Bool) :
    ((∀ h ∈ req.headers, asciiLower h.name ≠ "authorization") →
      (route_public_connection clients pending (some req) body api_key proxy_conn_id
        user_stream choice writeFails).errSent =
          some (401, "Missing API key in Authorization header") ∧
      (route_public_connection clients pending (some req) body api_key proxy_conn_id
        user_stream choice writeFails).clients = clients ∧
      (route_public_connection clients pending (some req) body api_key proxy_conn_id
        user_stream choice writeFails).pending = pending ∧
      (route_public_connection clients pending (some req) body api_key proxy_conn_id
        user_stream choice writeFails).cmdTarget = none ∧
      (route_public_connection clients pending (some req) body api_key proxy_conn_id
        user_stream choice writeFails).userClosed = true) ∧
    (∀ auth_value, auth_header req.headers = some auth_value →
      provided_key auth_value ≠ api_key →
      (route_public_connection clients pending (some req) body api_key proxy_conn_id
        user_stream choice writeFails).errSent = some (401, "Invalid API key") ∧
      (route_public_connection clients pending (some req) body api_key proxy_conn_id
        user_stream choice writeFails).clients = clients ∧
      (route_public_connection clients pending (some req) body api_key proxy_conn_id
        user_stream choice writeFails).pending = pending ∧
      (route_public_connection clients pending (some req) body api_key proxy_conn_id
        user_stream choice writeFails).cmdTarget = none ∧
      (route_public_connection clients pending (some req) body api_key proxy_conn_id
        user_stream choice writeFails).userClosed = true) := by
  constructor
  · intro habs
    have hfind : req.headers.find? (fun h => asciiLower h.name == "authorization") = none :=
      List.find?_eq_none.2 (fun x hx => by simpa using habs x hx)
    have hnone : auth_header req.headers = none := by
      unfold auth_header
      rw [hfind]
      rfl
    rw [route_missing_auth clients pending req body api_key proxy_conn_id user_stream
      choice writeFails hnone]
    exact ⟨rfl, rfl, rfl, rfl, rfl⟩
  · intro auth_value hsome hkey
    rw [route_invalid_key clients pending req body api_key proxy_conn_id user_stream
      choice writeFails auth_value hsome hkey]
    exact ⟨rfl, rfl, rfl, rfl, rfl⟩

/-- Witness for Claim C3: both rejection branches at concrete requests. -/
theorem frpx_c3_auth_rejection_witness :
    (route_public_connection [] [] (some cexHeadNoAuth) .badJson "abc123" "p" 0 0
      false).errSent = some (401, "Missing API key in Authorization header") ∧
    (route_public_connection [] [] (some cexHeadNoAuth) .badJson "abc123" "p" 0 0
      false).pending = [] ∧
    auth_header cexHead.headers = some "Bearer abc123" ∧
    provided_key "Bearer abc123" ≠ "zzz" ∧
    (route_public_connection [] [] (some cexHead) .badJson "zzz" "p" 0 0
      false).errSent = some (401, "Invalid API key") := by
  have h1 := (frpx_c3_auth_rejection [] [] cexHeadNoAuth .badJson "abc123" "p" 0 0
    false).1 (by decide)
  have h2 := (frpx_c3_auth_rejection [] [] cexHead .badJson "zzz" "p" 0 0 false).2
    "Bearer abc123" (by decide) (by decide)
  exact ⟨h1.1, h1.2.2.1, by decide, by decide, h2.1⟩

theorem route_auth_ok (clients : List (String × ClientInfo))
    (pending : List (String × Nat)) (req : HttpHeadView) (body : BodyParse)
    (api_key proxy_conn_id : String) (user_stream choice : Nat) (writeFails : Bool)
    (auth_value : String) (hsome : auth_header req.headers = some auth_value)
    (hkey : provided_key auth_value = api_key) :
    route_public_connection clients pending (some req) body api_key proxy_conn_id
        user_stream choice writeFails =
      routeAuthorized clients pending req body proxy_conn_id user_stream choice
        writeFails := by
  simp only [route_public_connection]
  rw [hsome]
  show (if provided_key auth_value = api_key then
      routeAuthorized clients pending req body proxy_conn_id user_stream choice writeFails
    else
      { errSent := some (401, "Invalid API key"), cmdTarget := none,
        clients := clients, pending := pending, userClosed := true,
        warnings := ["Invalid API key provided in Authorization header"],
        isOk := true }) =
    routeAuthorized clients pending req body proxy_conn_id user_stream choice writeFails
  rw [if_pos hkey]

/-- Claim C7: a public request that passes API-key validation while the
registry is empty gets the synthetic HTTP 503 with message "No active clients
available"; the user connection is closed, no pair request is issued and the
pairing table is untouched. -/
theorem frpx_c7_empty_registry (pending : List (String × Nat)) (req : HttpHeadView)
    (body : BodyParse) (api_key proxy_conn_id : String) (user_stream choice : Nat)
    (writeFails : Bool) (auth_value : String)
    (hsome : auth_header req.headers = some auth_value)
    (hkey : provided_key auth_value = api_key) :
    (route_public_connection [] pending (some req) body api_key proxy_conn_id
      user_stream choice writeFails).errSent = some (503, "No active clients available") ∧
    (route_public_connection [] pending (some req) body api_key proxy_conn_id
      user_stream choice writeFails).pending = pending ∧
    (route_public_connection [] pending (some req) body api_key proxy_conn_id
      user_stream choice writeFails).cmdTarget = none ∧
    (route_public_connection [] pending (some req) body api_key proxy_conn_id
      user_stream choice writeFails).userClosed = true := by
  rw [route_auth_ok [] pending req body api_key proxy_conn_id user_stream choice
    writeFails auth_value hsome hkey]
  simp only [routeAuthorized]
  by_cases hp : req.method = some "POST" ∧ req.path = some "/v1/chat/completions"
  · rw [if_pos hp]
    cases body with
    | notUtf8 => exact ⟨rfl, rfl, rfl, rfl⟩
    | badJson => exact ⟨rfl, rfl, rfl, rfl⟩
    | okModel m => exact ⟨rfl, rfl, rfl, rfl⟩
  · rw [if_neg hp]
    exact ⟨rfl, rfl, rfl, rfl⟩

/-- Witness for Claim C7 at a concrete authorized request. -/
theorem frpx_c7_empty_registry_witness :
    auth_header cexHead.headers = some "Bearer abc123" ∧
    provided_key "Bearer abc123" = "abc123" ∧
    (route_public_connection [] [] (some cexHead) (.okModel "m1") "abc123" "p" 0 0
      false).errSent = some (503, "No active clients available") ∧
    (route_public_connection [] [] (some cexHead) (.okModel "m1") "abc123" "p" 0 0
      false).pending = [] := by
  have h := frpx_c7_empty_registry [] cexHead (.okModel "m1") "abc123" "p" 0 0 false
    "Bearer abc123" (by decide) (by decide)
  exact ⟨by decide, by decide, h.1, h.2.1⟩

theorem dispatchToClient_cmdTarget (clients : List (String × ClientInfo))
    (pending : List (String × Nat)) (cid proxy_conn_id : String)
    (user_stream : Nat) (writeFails : Bool) (warns : List String) (ci : ClientInfo)
    (hci : alookup cid clients = some ci) (hauth : ci.authed = true) :
    (dispatchToClient clients pending cid proxy_conn_id user_stream writeFails
      warns).cmdTarget = some (cid, proxy_conn_id) ∧
    (dispatchToClient clients pending cid proxy_conn_id user_stream writeFails
      warns).warnings = warns := by
  cases writeFails <;> simp [dispatchToClient, hci, hauth]

theorem randomFallback_selects (clients : List (String × ClientInfo))
    (pending : List (String × Nat)) (proxy_conn_id : String)
    (user_stream choice : Nat) (writeFails : Bool) (warns : List String)
    (hne : clients ≠ []) (hauthed : ∀ p ∈ clients, p.2.authed = true) :
    (∃ cid, cid ∈ clients.map Prod.fst ∧
      (randomFallback clients pending proxy_conn_id user_stream choice writeFails
        warns).cmdTarget = some (cid, proxy_conn_id)) ∧
    (randomFallback clients pending proxy_conn_id user_stream choice writeFails
      warns).warnings = warns := by
  have hlen : 0 < (clients.map Prod.fst).length := by
    simpa using List.length_pos.2 hne
  have hidx : choice % (clients.map Prod.fst).length < (clients.map Prod.fst).length :=
    Nat.mod_lt _ hlen
  have hget : (clients.map Prod.fst).get? (choice % (clients.map Prod.fst).length) =
      some ((clients.map Prod.fst).get ⟨choice % (clients.map Prod.fst).length, hidx⟩) :=
    List.get?_eq_get hidx
  have hnemp : ¬ (clients.map Prod.fst).isEmpty = true := by
    cases clients with
    | nil => exact absurd rfl hne
    | cons p rest => simp [List.isEmpty]
  have hmem : (clients.map Prod.fst).get ⟨choice % (clients.map Prod.fst).length, hidx⟩ ∈
      clients.map Prod.fst := List.get_mem _ _ _
  obtain ⟨ci, hci⟩ := mem_keys_alookup hmem
  have hauth : ci.authed = true :=
    hauthed (_, ci) (alookup_mem hci)
  unfold randomFallback
  rw [if_neg hnemp, hget]
  have hd := dispatchToClient_cmdTarget clients pending _ proxy_conn_id user_stream
    writeFails warns ci hci hauth
  exact ⟨⟨_, hmem, hd.1⟩, hd.2⟩

theorem routeAuthorized_chat_found (clients : List (String × ClientInfo))
    (pending : List (String × Nat)) (req : HttpHeadView) (m : String)
    (proxy_conn_id : String) (user_stream choice : Nat) (writeFails : Bool)
    (cid : String)
    (hp : req.method = some "POST" ∧ req.path = some "/v1/chat/completions")
    (hfcm : find_client_by_model m clients = some cid) :
    routeAuthorized clients pending req (.okModel m) proxy_conn_id user_stream choice
        writeFails =
      dispatchToClient clients pending cid proxy_conn_id user_stream writeFails [] := by
  simp only [routeAuthorized]
  rw [if_pos hp, hfcm]

theorem routeAuthorized_chat_miss (clients : List (String × ClientInfo))
    (pending : List (String × Nat)) (req : HttpHeadView) (m : String)
    (proxy_conn_id : String) (user_stream choice : Nat) (writeFails : Bool)
    (hp : req.method = some "POST" ∧ req.path = some "/v1/chat/completions")
    (hfcm : find_client_by_model m clients = none) :
    routeAuthorized clients pending req (.okModel m) proxy_conn_id user_stream choice
        writeFails =
      randomFallback clients pending proxy_conn_id user_stream choice writeFails
        ["No client found for model \x27" ++ m ++ "\x27. Falling back to random."] := by
  simp only [routeAuthorized]
  rw [if_pos hp, hfcm]

theorem routeAuthorized_badJson (clients : List (String × ClientInfo))
    (pending : List (String × Nat)) (req : HttpHeadView)
    (proxy_conn_id : String) (user_stream choice : Nat) (writeFails : Bool)
    (hp : req.method = some "POST" ∧ req.path = some "/v1/chat/completions") :
    routeAuthorized clients pending req .badJson proxy_conn_id user_stream choice
        writeFails =
      randomFallback clients pending proxy_conn_id user_stream choice writeFails
        ["Could not parse chat completion body. Falling back to random."] := by
  simp only [routeAuthorized]
  rw [if_pos hp]

theorem routeAuthorized_notUtf8 (clients : List (String × ClientInfo))
    (pending : List (String × Nat)) (req : HttpHeadView)
    (proxy_conn_id : String) (user_stream choice : Nat) (writeFails : Bool)
    (hp : req.method = some "POST" ∧ req.path = some "/v1/chat/completions") :
    routeAuthorized clients pending req .notUtf8 proxy_conn_id user_stream choice
        writeFails =
      randomFallback clients pending proxy_conn_id user_stream choice writeFails
        ["Could not parse body as UTF-8. Falling back to random."] := by
  simp only [routeAuthorized]
  rw [if_pos hp]

/-- Claim C1: for a complete `POST /v1/chat/completions` head with a valid API
key, if the peeked body yields model `m` and some registered client advertises
`m`, the router issues `RequestNewProxyConn` to a client advertising `m`; if
the body fragment cannot be parsed, or no registered client advertises the
model, it falls back to random selection among all registered clients and logs
a warning. -/
theorem frpx_c1_model_routing (clients : List (String × ClientInfo))
    (pending : List (String × Nat)) (req : HttpHeadView) (body : BodyParse)
    (api_key proxy_conn_id : String) (user_stream choice : Nat) (writeFails : Bool)
    (auth_value : String)
    (hnodup : (clients.map Prod.fst).Nodup)
    (hauthed : ∀ p ∈ clients, p.2.authed = true)
    (hpost : req.method = some "POST")
    (hpath : req.path = some "/v1/chat/completions")
    (hauth : auth_header req.headers = some auth_value)
    (hkey : provided_key auth_value = api_key) :
    (∀ m, body = .okModel m → (∃ p ∈ clients, p.2.advertises m = true) →
      ∃ cid ci,
        (route_public_connection clients pending (some req) body api_key proxy_conn_id
          user_stream choice writeFails).cmdTarget = some (cid, proxy_conn_id) ∧
        alookup cid clients = some ci ∧ ci.advertises m = true) ∧
    ((body = .notUtf8 ∨ body = .badJson ∨
        (∃ m, body = .okModel m ∧ ∀ p ∈ clients, p.2.advertises m = false)) →
      clients ≠ [] →
      (∃ cid, cid ∈ clients.map Prod.fst ∧
        (route_public_connection clients pending (some req) body api_key proxy_conn_id
          user_stream choice writeFails).cmdTarget = some (cid, proxy_conn_id)) ∧
      (route_public_connection clients pending (some req) body api_key proxy_conn_id
        user_stream choice writeFails).warnings ≠ []) := by
  have hp : req.method = some "POST" ∧ req.path = some "/v1/chat/completions" :=
    ⟨hpost, hpath⟩
  constructor
  · intro m hbody hadv
    subst hbody
    have hex : ∃ x ∈ clients, (fun p : String × ClientInfo => p.2.advertises m) x := by
      obtain ⟨p, hpmem, hpadv⟩ := hadv
      exact ⟨p, hpmem, by simpa using hpadv⟩
    have hiss : (clients.find? (fun p => p.2.advertises m)).isSome :=
      List.find?_isSome.2 hex
    obtain ⟨q, hq⟩ := Option.isSome_iff_exists.1 hiss
    obtain ⟨cid, ci⟩ := q
    have hfcm : find_client_by_model m clients = some cid := by
      unfold find_client_by_model
      rw [hq]
      rfl
    have hmem : (cid, ci) ∈ clients := List.mem_of_find?_eq_some hq
    have hadvq : ci.advertises m = true := by
      simpa using List.find?_some hq
    have hlook : alookup cid clients = some ci := alookup_of_mem_nodup hnodup hmem
    have hauthq : ci.authed = true := hauthed (cid, ci) hmem
    rw [route_auth_ok clients pending req (.okModel m) api_key proxy_conn_id
      user_stream choice writeFails auth_value hauth hkey,
      routeAuthorized_chat_found clients pending req m proxy_conn_id user_stream
        choice writeFails cid hp hfcm]
    exact ⟨cid, ci,
      (dispatchToClient_cmdTarget clients pending cid proxy_conn_id user_stream
        writeFails [] ci hlook hauthq).1, hlook, hadvq⟩
  · intro hbody hne
    rw [route_auth_ok clients pending req body api_key proxy_conn_id user_stream
      choice writeFails auth_value hauth hkey]
    rcases hbody with hbody | hbody | ⟨m, hbody, hnoadv⟩
    · subst hbody
      rw [routeAuthorized_notUtf8 clients pending req proxy_conn_id user_stream
        choice writeFails hp]
      have h := randomFallback_selects clients pending proxy_conn_id user_stream
        choice writeFails
        ["Could not parse body as UTF-8. Falling back to random."] hne hauthed
      exact ⟨h.1, by rw [h.2]; simp⟩
    · subst hbody
      rw [routeAuthorized_badJson clients pending req proxy_conn_id user_stream
        choice writeFails hp]
      have h := randomFallback_selects clients pending proxy_conn_id user_stream
        choice writeFails
        ["Could not parse chat completion body. Falling back to random."] hne hauthed
      exact ⟨h.1, by rw [h.2]; simp⟩
    · subst hbody
      have hfcm : find_client_by_model m clients = none := by
        unfold find_client_by_model
        rw [List.find?_eq_none.2 (fun x hx => by simp [hnoadv x hx])]
        rfl
      rw [routeAuthorized_chat_miss clients pending req m proxy_conn_id user_stream
        choice writeFails hp hfcm]
      have h := randomFallback_selects clients pending proxy_conn_id user_stream
        choice writeFails
        ["No client found for model \x27" ++ m ++ "\x27. Falling back to random."]
        hne hauthed
      exact ⟨h.1, by rw [h.2]; simp⟩

/-- Witness for Claim C1, exercising both the model hit and the fallback at a
concrete registry of one client advertising "m1". -/
theorem frpx_c1_model_routing_witness :
    ((([("a1", cexClientHb)] : List (String × ClientInfo)).map Prod.fst).Nodup ∧
      auth_header cexHead.headers = some "Bearer abc123" ∧
      provided_key "Bearer abc123" = "abc123") ∧
    (∃ cid ci,
      (route_public_connection [("a1", cexClientHb)] [] (some cexHead)
        (.okModel "m1") "abc123" "p" 0 0 false).cmdTarget = some (cid, "p") ∧
      alookup cid [("a1", cexClientHb)] = some ci ∧ ci.advertises "m1" = true) ∧
    ((∃ cid, cid ∈ ([("a1", cexClientHb)] : List (String × ClientInfo)).map Prod.fst ∧
      (route_public_connection [("a1", cexClientHb)] [] (some cexHead)
        .badJson "abc123" "p" 0 0 false).cmdTarget = some (cid, "p")) ∧
     (route_public_connection [("a1", cexClientHb)] [] (some cexHead)
        .badJson "abc123" "p" 0 0 false).warnings ≠ []) := by
  have ha := (frpx_c1_model_routing [("a1", cexClientHb)] [] cexHead (.okModel "m1")
    "abc123" "p" 0 0 false "Bearer abc123" (by decide) (by decide) rfl rfl (by decide)
    (by decide)).1 "m1" rfl (by decide)
  have hb := (frpx_c1_model_routing [("a1", cexClientHb)] [] cexHead .badJson
    "abc123" "p" 0 0 false "Bearer abc123" (by decide) (by decide) rfl rfl (by decide)
    (by decide)).2 (Or.inr (Or.inl rfl)) (by decide)
  exact ⟨⟨by decide, by decide, by decide⟩, ha, hb⟩

/-- Claim C10: for any status code outside \x7b400, 401, 403, 500\x7d — in
particular the 503 used on an empty registry — the reason phrase is "Error";
for every status code the response carries a JSON envelope with success=false
and data=null, a Content-Length equal to the body's byte length, and
Connection: close. -/
theorem frpx_c10_http_error_format (status_code : Nat) (msg now : String) :
    (¬(status_code = 400 ∨ status_code = 401 ∨ status_code = 403 ∨
        status_code = 500) →
      statusLine status_code = "HTTP/1.1 " ++ toString status_code ++ " Error") ∧
    statusLine 503 = "HTTP/1.1 503 Error" ∧
    (ApiResponse.error msg now).success = false ∧
    (ApiResponse.error msg now).data = none ∧
    (∃ body, send_http_error_response status_code msg now =
        statusLine status_code ++
        "\r\nContent-Type: application/json\r\nContent-Length: " ++
        toString body.utf8ByteSize ++ "\r\nConnection: close\r\n\r\n" ++ body ∧
      body = renderApiResponse (ApiResponse.error msg now)) := by
  refine ⟨?_, by decide, rfl, rfl,
    ⟨renderApiResponse (ApiResponse.error msg now), rfl, rfl⟩⟩
  intro h
  push_neg at h
  unfold statusLine status_text
  rw [if_neg h.1, if_neg h.2.1, if_neg h.2.2.1, if_neg h.2.2.2]
  have hconc : ∀ a b c : String, a ++ b ++ c = a ++ (b ++ c) := by
    intro a b c
    apply congrArg String.mk
    exact List.append_assoc a.data b.data c.data
  rw [hconc]
  rfl

/-- Witness for Claim C10 at status 503 and the empty-registry message. -/
theorem frpx_c10_http_error_format_witness :
    ¬((503 : Nat) = 400 ∨ (503 : Nat) = 401 ∨ (503 : Nat) = 403 ∨
      (503 : Nat) = 500) ∧
    statusLine 503 = "HTTP/1.1 503 Error" ∧
    (ApiResponse.error "No active clients available" "t").success = false := by
  have h := frpx_c10_http_error_format 503 "No active clients available" "t"
  exact ⟨by decide, h.1 (by decide), h.2.2.1⟩

/-- Claim C8 (amended): `join_streams` copies both directions concurrently
until the FIRST direction completes; that completion cancels the other
direction, so at least one direction delivers all of its bytes and each
direction delivers a prefix of its bytes, after which both streams are
dropped (releasing the descriptors) — no explicit shutdown is performed and
the cancelled direction may lose its remaining bytes. -/
theorem frpx_c8_splice (aData bData : List Nat) (sch : SpliceSchedule) :
    ((join_streams aData bData sch).1 = aData ∨
      (join_streams aData bData sch).2 = bData) ∧
    (∃ t, (join_streams aData bData sch).1 ++ t = aData) ∧
    (∃ t, (join_streams aData bData sch).2 ++ t = bData) := by
  unfold join_streams
  by_cases h : sch.aFinishesFirst = true
  · rw [if_pos h]
    exact ⟨Or.inl rfl, ⟨[], List.append_nil _⟩,
      ⟨bData.drop sch.loserBytes, List.take_append_drop _ _⟩⟩
  · rw [if_neg h]
    exact ⟨Or.inr rfl, ⟨aData.drop sch.loserBytes, List.take_append_drop _ _⟩,
      ⟨[], List.append_nil _⟩⟩

/-- Counterexample to Claim C8 as stated: with A at EOF immediately and one
byte pending from B, the schedule in which the A→B copy completes first makes
`join_streams` return before the B→A byte is delivered — the completion of one
direction does cancel the other, losing data. -/
theorem frpx_c8_counterexample :
    join_streams [] [1] { aFinishesFirst := true, loserBytes := 0 } = ([], []) ∧
    (join_streams [] [1] { aFinishesFirst := true, loserBytes := 0 }).2 ≠ [1] := by
  exact ⟨rfl, by decide⟩

theorem occ_eq_zero_of_not_mem {x : String} :
    ∀ {l : List String}, x ∉ l → occ x l = 0 := by
  intro l
  induction l with
  | nil => intro _; rfl
  | cons y rest ih =>
    intro h
    have hy : ¬ y = x := fun hxy => h (hxy ▸ List.mem_cons_self y rest)
    simp only [occ, if_neg hy, ih (fun hm => h (List.mem_cons_of_mem y hm))]

theorem occ_pos_of_mem {x : String} :
    ∀ {l : List String}, x ∈ l → 1 ≤ occ x l := by
  intro l
  induction l with
  | nil => intro h; simp at h
  | cons y rest ih =>
    intro h
    rcases List.mem_cons.1 h with h | h
    · simp [occ, h.symm]
    · have := ih h
      simp only [occ]
      omega

theorem removeFirst_of_not_mem {x : String} :
    ∀ {l : List String}, x ∉ l → removeFirst x l = l := by
  intro l
  induction l with
  | nil => intro _; rfl
  | cons y rest ih =>
    intro h
    have hy : ¬ y = x := fun hxy => h (hxy ▸ List.mem_cons_self y rest)
    simp only [removeFirst, if_neg hy, ih (fun hm => h (List.mem_cons_of_mem y hm))]

theorem occ_removeFirst {x : String} :
    ∀ {l : List String}, x ∈ l → occ x (removeFirst x l) = occ x l - 1 := by
  intro l
  induction l with
  | nil => intro h; simp at h
  | cons y rest ih =>
    intro h
    by_cases hy : y = x
    · simp [removeFirst, occ, if_pos hy]
    · have hm : x ∈ rest := by
        rcases List.mem_cons.1 h with h | h
        · exact absurd h.symm hy
        · exact h
      have h1 := occ_pos_of_mem hm
      simp only [removeFirst, if_neg hy, occ, ih hm]
      omega

theorem occ_removeFirst_ne {x y : String} (hxy : y ≠ x) :
    ∀ {l : List String}, occ x (removeFirst y l) = occ x l := by
  intro l
  induction l with
  | nil => rfl
  | cons z rest ih =>
    by_cases hz : z = y
    · subst hz
      have hx : ¬ z = x := hxy
      simp [removeFirst, occ, if_neg hx]
    · simp only [removeFirst, if_neg hz, occ, ih]

theorem pairStep_occ (s : SrvState) (pid : String) (e : PairEv) :
    (if removesPair s pid e then 1 else 0) + occ pid (PairEv.step s e).pending =
      occ pid s.pending + (if insertsPair pid e then 1 else 0) := by
  cases e with
  | routeInsert p c us =>
    by_cases hp : p = pid <;>
      simp [removesPair, insertsPair, PairEv.step, occ, hp] <;> omega
  | routeWriteOk p c => simp [removesPair, insertsPair, PairEv.step]
  | routeWriteFail p c =>
    by_cases hp : p = pid
    · subst hp
      by_cases hm : p ∈ s.pending
      · have h2 := occ_pos_of_mem hm
        simp [removesPair, insertsPair, PairEv.step, hm, occ_removeFirst hm] <;> omega
      · simp [removesPair, insertsPair, PairEv.step, hm, removeFirst_of_not_mem hm,
          occ_eq_zero_of_not_mem hm]
    · simp [removesPair, insertsPair, PairEv.step, hp, occ_removeFirst_ne hp]
  | proxyCallback p =>
    by_cases hp : p = pid
    · subst hp
      by_cases hm : p ∈ s.pending
      · have h2 := occ_pos_of_mem hm
        simp [removesPair, insertsPair, PairEv.step, hm, occ_removeFirst hm] <;> omega
      · simp [removesPair, insertsPair, PairEv.step, hm, removeFirst_of_not_mem hm,
          occ_eq_zero_of_not_mem hm]
    · simp [removesPair, insertsPair, PairEv.step, hp, occ_removeFirst_ne hp]
  | registerClient c => simp [removesPair, insertsPair, PairEv.step]
  | clientDisconnect c => simp [removesPair, insertsPair, PairEv.step]
  | adminRead => simp [removesPair, insertsPair, PairEv.step]

theorem pairConservation :
    ∀ (tr : List PairEv) (s : SrvState) (pid : String),
      remCount s tr pid + occ pid (runTrace s tr).pending =
        occ pid s.pending + insCount tr pid := by
  intro tr
  induction tr with
  | nil =>
    intro s pid
    simp [remCount, runTrace, insCount]
  | cons e tr ih =>
    intro s pid
    have hstep := pairStep_occ s pid e
    have hrec := ih (PairEv.step s e) pid
    simp only [remCount, runTrace, insCount, List.countP_cons] at hrec ⊢
    omega

theorem runTrace_append (tr₁ tr₂ : List PairEv) :
    ∀ s, runTrace s (tr₁ ++ tr₂) = runTrace (runTrace s tr₁) tr₂ := by
  induction tr₁ with
  | nil => intro s; rfl
  | cons e tr ih => intro s; exact ih (PairEv.step s e)

theorem remCount_append (tr₁ tr₂ : List PairEv) (pid : String) :
    ∀ s, remCount s (tr₁ ++ tr₂) pid =
      remCount s tr₁ pid + remCount (runTrace s tr₁) tr₂ pid := by
  induction tr₁ with
  | nil => intro s; simp [remCount, runTrace]
  | cons e tr ih =>
    intro s
    show (if removesPair s pid e then 1 else 0) +
        remCount (PairEv.step s e) (tr ++ tr₂) pid =
      (if removesPair s pid e then 1 else 0) + remCount (PairEv.step s e) tr pid +
        remCount (runTrace (PairEv.step s e) tr) tr₂ pid
    rw [ih (PairEv.step s e)]
    omega

theorem remCount_le_one (tr : List PairEv) (pid : String)
    (h : insCount tr pid ≤ 1) :
    remCount { pending := [], clients := [] } tr pid ≤ 1 := by
  have hc := pairConservation tr { pending := [], clients := [] } pid
  have h0 : occ pid (SrvState.mk [] []).pending = 0 := rfl
  omega

/-- Claim C2: every pair id the router inserts is removed exactly once —
either by the proxy listener when a `NewProxyConn` callback for it arrives, or
by the router itself when the `RequestNewProxyConn` write fails (which also
purges the chosen client from the registry and drops the user stream) — and
no other operation removes it.  Freshness of UUID v4 pair ids appears as the
hypothesis that the id is inserted exactly once along the trace. -/
theorem frpx_c2_pair_consumed_exactly_once (tr₁ tr₂ : List PairEv) (e₀ : PairEv)
    (pid : String) (hins₁ : insCount tr₁ pid = 1) (hins₂ : insCount tr₂ pid = 0)
    (htrig : isTrigger pid e₀) :
    (∀ (s : SrvState) (e : PairEv),
      occ pid (PairEv.step s e).pending < occ pid s.pending → isTrigger pid e) ∧
    (∀ tr : List PairEv, insCount tr pid ≤ 1 →
      remCount { pending := [], clients := [] } tr pid ≤ 1) ∧
    remCount { pending := [], clients := [] } (tr₁ ++ e₀ :: tr₂) pid = 1 ∧
    (∀ (s : SrvState) (cid : String),
      (PairEv.step s (.routeWriteFail pid cid)).clients =
        removeFirst cid s.clients) := by
  refine ⟨?_, fun tr h => remCount_le_one tr pid h, ?_, fun s cid => rfl⟩
  · intro s e hlt
    cases e with
    | routeInsert p c us =>
      exfalso
      have : occ pid ((PairEv.step s (.routeInsert p c us)).pending) =
          (if p = pid then 1 else 0) + occ pid s.pending := rfl
      omega
    | routeWriteOk p c => exact absurd hlt (by simp [PairEv.step])
    | routeWriteFail p c =>
      by_cases hp : p = pid
      · exact Or.inl ⟨c, by rw [hp]⟩
      · exfalso
        have : occ pid ((PairEv.step s (.routeWriteFail p c)).pending) =
            occ pid s.pending := occ_removeFirst_ne hp
        omega
    | proxyCallback p =>
      by_cases hp : p = pid
      · exact Or.inr (by rw [hp])
      · exfalso
        have : occ pid ((PairEv.step s (.proxyCallback p)).pending) =
            occ pid s.pending := occ_removeFirst_ne hp
        omega
    | registerClient c => exact absurd hlt (by simp [PairEv.step])
    | clientDisconnect c => exact absurd hlt (by simp [PairEv.step])
    | adminRead => exact absurd hlt (by simp [PairEv.step])
  · have hc1 := pairConservation tr₁ { pending := [], clients := [] } pid
    have h0 : occ pid (SrvState.mk [] []).pending = 0 := rfl
    set s1 := runTrace { pending := [], clients := [] } tr₁ with hs1
    have hocc1 : occ pid s1.pending ≤ 1 := by omega
    have hstep2 : (if removesPair s1 pid e₀ then 1 else 0) = occ pid s1.pending ∧
        occ pid (PairEv.step s1 e₀).pending = 0 := by
      rcases htrig with ⟨c, rfl⟩ | rfl
      · by_cases hm : pid ∈ s1.pending
        · have h2 := occ_pos_of_mem hm
          have h3 := occ_removeFirst hm
          constructor
          · simp [removesPair, hm]
            omega
          · show occ pid (removeFirst pid s1.pending) = 0
            omega
        · have h2 := occ_eq_zero_of_not_mem hm
          constructor
          · simp [removesPair, hm, h2]
          · show occ pid (removeFirst pid s1.pending) = 0
            rw [removeFirst_of_not_mem hm, h2]
      · by_cases hm : pid ∈ s1.pending
        · have h2 := occ_pos_of_mem hm
          have h3 := occ_removeFirst hm
          constructor
          · simp [removesPair, hm]
            omega
          · show occ pid (removeFirst pid s1.pending) = 0
            omega
        · have h2 := occ_eq_zero_of_not_mem hm
          constructor
          · simp [removesPair, hm, h2]
          · show occ pid (removeFirst pid s1.pending) = 0
            rw [removeFirst_of_not_mem hm, h2]
    have hc2 := pairConservation tr₂ (PairEv.step s1 e₀) pid
    rw [remCount_append tr₁ (e₀ :: tr₂) pid]
    show remCount { pending := [], clients := [] } tr₁ pid +
      ((if removesPair s1 pid e₀ then 1 else 0) +
        remCount (PairEv.step s1 e₀) tr₂ pid) = 1
    omega

/-- Witness for Claim C2: insert pair "p1", then the proxy callback consumes
it — exactly one effective removal along the trace. -/
theorem frpx_c2_pair_consumed_exactly_once_witness :
    insCount [PairEv.routeInsert "p1" "a1" 7] "p1" = 1 ∧
    insCount [] "p1" = 0 ∧
    isTrigger "p1" (PairEv.proxyCallback "p1") ∧
    remCount { pending := [], clients := [] }
      ([PairEv.routeInsert "p1" "a1" 7] ++ PairEv.proxyCallback "p1" :: []) "p1" = 1 := by
  have h := frpx_c2_pair_consumed_exactly_once [PairEv.routeInsert "p1" "a1" 7] []
    (PairEv.proxyCallback "p1") "p1" (by decide) (by decide) (Or.inr rfl)
  exact ⟨by decide, by decide, Or.inr rfl, h.2.2.1⟩
